import Mathlib

/-!
Shallow embedding of the network-diagnostics subsystem
(`network/network_diagnostics.py`) and the HTTP-status percentage summary of
`logs/log_analyzer.py`, with theorems checking the claims of the specification.

External effects (subprocess execution, socket connects, the DNS resolver)
are passed in as explicit environment values; the executors are translated
from the Python source as total functions over those environments, so the
`try/except` structure of the source becomes pattern matching on the
environment outcome.  Python floats are modelled as exact rationals; string
splitting is modelled character by character so that all parsing functions
compute by structural recursion.
-/

namespace NetDiag

/-- A probe outcome tag, mirroring the literal `status` strings of the
source dictionaries (`"success"`, `"failed"`, `"timeout"`, `"error"`,
`"open"`, `"closed"`). -/
inductive Status
  | success
  | failed
  | timeout
  | error
  | portOpen
  | portClosed
  deriving DecidableEq, Repr

/-- Outcome of `subprocess.run(cmd, capture_output=True, text=True, timeout=b)`:
either the process completed (exit code, stdout, stderr), or the wall-clock
bound `b` expired (`subprocess.TimeoutExpired`; per the documented library
behaviour the child is killed before the exception is raised, so `timedOut`
also records that the process was terminated rather than left running), or
launching/running raised some other exception (message recorded). -/
inductive ProcResult
  | completed (returncode : Int) (stdout stderr : String)
  | timedOut
  | raised (msg : String)
  deriving DecidableEq, Repr

/-! ### String primitives

`str.split(sep)` for a one-character separator, `str.strip()`, and the
`in` substring test, modelled on `List Char` by structural recursion. -/

/-- The whitespace set stripped by Python `str.strip()` / `float()`. -/
def pyWhitespace (c : Char) : Bool :=
  c = ' ' || c = '\t' || c = '\n' || c = '\r' || c = '\x0b' || c = '\x0c'

/-- Python `str.strip()`. -/
def trimChars (cs : List Char) : List Char :=
  ((cs.dropWhile pyWhitespace).reverse.dropWhile pyWhitespace).reverse

/-- Python `str.split(sep)` for a single-character separator. -/
def splitChar (sep : Char) : List Char → List (List Char)
  | [] => [[]]
  | c :: rest =>
      match splitChar sep rest with
      | [] => [[c]]
      | h :: t => if c = sep then [] :: h :: t else (c :: h) :: t

/-- Python `pat in s` substring containment. -/
def containsSub (pat : List Char) : List Char → Bool
  | [] => pat.isPrefixOf []
  | c :: rest => pat.isPrefixOf (c :: rest) || containsSub pat rest

/-! ### Python `float()` on decimal literals

`ping_host` converts the split statistics components with the builtin
`float()`. We model `float()` on decimal string literals: optional
surrounding whitespace, optional sign, digits with at most one dot (at
least one digit), optional exponent.  Any other string (in particular one
with trailing non-whitespace text, as in `"9.012 ms"`) makes `float()`
raise `ValueError`, modelled as `none`. -/

/-- Numeric value of a list of decimal digit characters. -/
def digitsToNat (ds : List Char) : Nat :=
  ds.foldl (fun a c => 10 * a + (c.toNat - 48)) 0

/-- Parse a nonempty run of digits as an integer, returning the rest. -/
def parseNatPart (cs : List Char) : Option (Int × List Char) :=
  let ds := cs.takeWhile Char.isDigit
  if ds.isEmpty then none else some ((digitsToNat ds : Int), cs.dropWhile Char.isDigit)

/-- Parse an optionally signed nonempty run of digits. -/
def parseSignedNat : List Char → Option (Int × List Char)
  | '+' :: r => parseNatPart r
  | '-' :: r => (parseNatPart r).map (fun p => (-p.1, p.2))
  | r => parseNatPart r

/-- Parse an unsigned decimal mantissa (`123`, `123.45`, `123.`, `.45`);
the value is `mant / 10 ^ shift`. -/
def parseMantissa (cs : List Char) : Option (Nat × Nat × List Char) :=
  let ip := cs.takeWhile Char.isDigit
  match cs.dropWhile Char.isDigit with
  | '.' :: r =>
      let fp := r.takeWhile Char.isDigit
      if ip.isEmpty && fp.isEmpty then none
      else some (digitsToNat ip * 10 ^ fp.length + digitsToNat fp, fp.length,
        r.dropWhile Char.isDigit)
  | rest => if ip.isEmpty then none else some (digitsToNat ip, 0, rest)

/-- Python `float(s)` on a decimal literal, as an exact rational; `none`
models `ValueError`. -/
def pyFloat (s : List Char) : Option ℚ :=
  let cs := trimChars s
  let signed : Int × List Char :=
    match cs with
    | '+' :: r => (1, r)
    | '-' :: r => (-1, r)
    | r => (1, r)
  match parseMantissa signed.2 with
  | none => none
  | some (m, shift, rest) =>
      match rest with
      | [] => some (((signed.1 * m : Int) : ℚ) / 10 ^ shift)
      | 'e' :: r =>
          match parseSignedNat r with
          | some (e, []) => some (((signed.1 * m : Int) : ℚ) / 10 ^ shift * 10 ^ e)
          | _ => none
      | 'E' :: r =>
          match parseSignedNat r with
          | some (e, []) => some (((signed.1 * m : Int) : ℚ) / 10 ^ shift * 10 ^ e)
          | _ => none
      | _ => none

/-! ### The ping statistics parser -/

/-- The comprehension `[line for line in result.stdout.split(chr(10)) if "min/avg/max" in line]`. -/
def statsLines (stdout : String) : List (List Char) :=
  (splitChar '\n' stdout.toList).filter (containsSub "min/avg/max".toList)

/-- The chain `line.split("=")[1].strip().split("/")` followed by `float()` on the
components at indices 0, 1, 2.  `none` models the `IndexError`/`ValueError`
paths, which the blanket `except Exception` of the source turns into an
`"error"` result. -/
def parsePingStats (line : List Char) : Option (ℚ × ℚ × ℚ) :=
  match splitChar '=' line with
  | _ :: second :: _ =>
      match splitChar '/' (trimChars second) with
      | a :: b :: c :: _ =>
          match pyFloat a, pyFloat b, pyFloat c with
          | some mn, some av, some mx => some (mn, av, mx)
          | _, _, _ => none
      | _ => none
  | _ => none

/-- The dictionary returned by `ping_host`; optional keys are `Option`. -/
structure PingResult where
  host : String
  status : Status
  min : Option ℚ := none
  avg : Option ℚ := none
  max : Option ℚ := none
  error : Option String := none
  output : Option String := none
  deriving DecidableEq, Repr

/-- Body of `ping_host` applied to the outcome of the `subprocess.run` call. -/
def ping_host_core (host : String) (count timeout : Nat) (pr : ProcResult) : PingResult :=
  match pr with
  | .completed rc out errS =>
      if rc = 0 then
        match statsLines out with
        | line :: _ =>
            match parsePingStats line with
            | some (mn, av, mx) =>
                { host := host, status := .success,
                  min := some mn, avg := some av, max := some mx, output := some out }
            | none =>
                -- float()/indexing raised inside the try block; the blanket
                -- `except Exception` returns the exception text as the error
                { host := host, status := .error,
                  error := some "could not convert string to float" }
        | [] =>
            { host := host, status := .failed,
              error := some (if errS = "" then "Host unreachable" else errS),
              output := some out }
      else
        { host := host, status := .failed,
          error := some (if errS = "" then "Host unreachable" else errS),
          output := some out }
  | .timedOut =>
      { host := host, status := .timeout,
        error := some ("Ping timeout after " ++ toString (timeout * count) ++ " seconds") }
  | .raised msg =>
      { host := host, status := .error, error := some msg }

/-- The executor `ping_host(host, count, timeout)`: runs
`subprocess.run(["ping","-c",count,"-W",timeout,host], timeout=timeout*count+10)`;
`run` is the process environment, indexed by the wall-clock bound handed to
`subprocess.run`. -/
def ping_host (host : String) (count timeout : Nat) (run : Nat → ProcResult) : PingResult :=
  ping_host_core host count timeout (run (timeout * count + 10))

/-! ### TCP port check -/

/-- Python `round(x, 2)` modelled on exact rationals (the source applies it
to `(end_time - start_time) * 1000`; only the presence of the value matters
to the claims, so the float tie-breaking rule is not modelled). -/
def pyRound2 (q : ℚ) : ℚ := ((q * 100 + 1 / 2).floor : ℚ) / 100

/-- The code `errno.EWOULDBLOCK` on Linux. -/
def EWOULDBLOCK : Int := 11

/-- Outcome of `sock.connect_ex((host, port))` under `sock.settimeout(timeout)`.
CPython semantics: `connect_ex` returns `0` on connection, a nonzero errno on
refusal, and — when the connect does not resolve within the socket timeout —
returns the nonzero code `EWOULDBLOCK` instead of raising; exceptions
(e.g. `socket.gaierror` from name resolution) are raised. -/
inductive ConnectExOutcome
  | ret (code : Int)
  | raised (msg : String)
  deriving DecidableEq, Repr

/-- The `connect_ex` outcome when the attempt does not resolve to success or
definitive failure within the socket timeout: the call returns
`EWOULDBLOCK` (no exception). -/
def ConnectExOutcome.timedOutAttempt : ConnectExOutcome := .ret EWOULDBLOCK

/-- The dictionary returned by `check_port`. -/
structure PortResult where
  host : String
  port : Nat
  status : Status
  response_time : Option ℚ := none
  error : Option String := none
  deriving DecidableEq, Repr

/-- The executor `check_port(host, port, timeout)`.  `elapsedSec` is the measured
`end_time - start_time`; `attempt` the socket-layer outcome.  The second
component records whether `sock.close()` was executed: the source calls it
between `connect_ex` and the status branch, so it runs on the return paths
but is skipped when `connect_ex` raises (the blanket `except` returns the
error dictionary without closing the socket). -/
def check_port (host : String) (port : Nat) (elapsedSec : ℚ) (attempt : ConnectExOutcome) :
    PortResult × Bool :=
  match attempt with
  | .ret code =>
      if code = 0 then
        ({ host := host, port := port, status := .portOpen,
           response_time := some (pyRound2 (elapsedSec * 1000)) }, true)
      else
        ({ host := host, port := port, status := .portClosed }, true)
  | .raised msg =>
      ({ host := host, port := port, status := .error, error := some msg }, false)

/-! ### DNS lookup -/

/-- Outcome of `socket.gethostbyname(hostname)`: an address, a
`socket.gaierror`, or some other exception. -/
inductive ResolveOutcome
  | resolved (ip : String)
  | gaierror (msg : String)
  | raised (msg : String)
  deriving DecidableEq, Repr

/-- The dictionary returned by `dns_lookup`. -/
structure DnsResult where
  hostname : String
  status : Status
  ip : Option String := none
  response_time : Option ℚ := none
  error : Option String := none
  deriving DecidableEq, Repr

/-- The executor `dns_lookup(hostname)`.  `elapsedSec` is the measured wall-clock time
around the resolver call; `resolver` its outcome. -/
def dns_lookup (hostname : String) (elapsedSec : ℚ) (resolver : ResolveOutcome) : DnsResult :=
  match resolver with
  | .resolved ip =>
      { hostname := hostname, status := .success, ip := some ip,
        response_time := some (pyRound2 (elapsedSec * 1000)) }
  | .gaierror msg =>
      { hostname := hostname, status := .failed, error := some msg }
  | .raised msg =>
      { hostname := hostname, status := .error, error := some msg }

/-! ### Traceroute -/

/-- The dictionary returned by `traceroute`. -/
structure TraceResult where
  host : String
  status : Status
  output : Option String := none
  error : Option String := none
  deriving DecidableEq, Repr

/-- The executor `traceroute(host, max_hops)`: runs
`subprocess.run(["traceroute","-m",max_hops,host], timeout=60)`; `proc` is
the process outcome.  On completion `output` is always `stdout`, and
`error` is `stderr` exactly when the exit code is nonzero (`None`
otherwise, modelled as `none`). -/
def traceroute (host : String) (proc : ProcResult) : TraceResult :=
  match proc with
  | .completed rc out errS =>
      if rc = 0 then { host := host, status := .success, output := some out }
      else { host := host, status := .failed, output := some out, error := some errS }
  | .timedOut =>
      { host := host, status := .timeout, error := some "Traceroute timeout" }
  | .raised msg =>
      { host := host, status := .error, error := some msg }

/-! ### Concurrency coordinator (`comprehensive_test`)

The coordinator submits one future per request (`executor.submit` per host,
and per host×port pair for port checks) and consumes them with
`as_completed`, which yields every submitted future exactly once, in an
order that need not match submission order.  We model the environment of
one run, the submission-order result lists, and take the `as_completed`
order as an arbitrary permutation of the submission-order list. -/

/-- The external world of one run: resolver, process runner, socket layer. -/
structure Env where
  resolve : String → ResolveOutcome
  dnsElapsed : String → ℚ
  pingProc : String → Nat → ProcResult
  connect : String → Nat → ConnectExOutcome
  connectElapsed : String → Nat → ℚ
  traceProc : String → ProcResult

/-- DNS futures, one per host, in submission order
(`{executor.submit(self.dns_lookup, host): host for host in hosts}`). -/
def dnsResults (env : Env) (hosts : List String) : List DnsResult :=
  hosts.map fun h => dns_lookup h (env.dnsElapsed h) (env.resolve h)

/-- Ping futures, one per host; `comprehensive_test` submits
`self.ping_host(host)` with the default `count=4, timeout=5`. -/
def pingResults (env : Env) (hosts : List String) : List PingResult :=
  hosts.map fun h => ping_host h 4 5 (env.pingProc h)

/-- The host×port cross product in submission order
(`for host in hosts: for port in ports: ...`). -/
def portPairs (hosts : List String) (ports : List Nat) : List (String × Nat) :=
  hosts.flatMap fun h => ports.map fun p => (h, p)

/-- Port-check futures, one per host×port pair, in submission order. -/
def portResults (env : Env) (hosts : List String) (ports : List Nat) : List PortResult :=
  (portPairs hosts ports).map fun hp =>
    (check_port hp.1 hp.2 (env.connectElapsed hp.1 hp.2) (env.connect hp.1 hp.2)).1

/-- Traceroute results; this section is a sequential `for host in hosts`
loop, not a pool. -/
def traceResults (env : Env) (hosts : List String) : List TraceResult :=
  hosts.map fun h => traceroute h (env.traceProc h)

/-- The probe categories of a comprehensive run. -/
inductive ProbeKind
  | dns
  | ping
  | port
  | trace
  deriving DecidableEq, Repr

/-- Identity of one requested probe: target, category, optional port. -/
structure ProbeKey where
  target : String
  kind : ProbeKind
  port : Option Nat := none
  deriving DecidableEq, Repr

/-- A probe result of any category. -/
inductive ProbeResult
  | dns (r : DnsResult)
  | ping (r : PingResult)
  | port (r : PortResult)
  | trace (r : TraceResult)
  deriving DecidableEq, Repr

/-- The key a result answers to. -/
def resultKey : ProbeResult → ProbeKey
  | .dns r => ⟨r.hostname, .dns, none⟩
  | .ping r => ⟨r.host, .ping, none⟩
  | .port r => ⟨r.host, .port, some r.port⟩
  | .trace r => ⟨r.host, .trace, none⟩

/-- All probe requests of a comprehensive run, as keys: one DNS and one
ping request per host, one port request per host×port pair, one traceroute
request per host when the flag is set. -/
def requestedKeys (hosts : List String) (ports : List Nat) (tr : Bool) : List ProbeKey :=
  hosts.map (fun h => ⟨h, .dns, none⟩) ++ hosts.map (fun h => ⟨h, .ping, none⟩)
    ++ (portPairs hosts ports).map (fun hp => ⟨hp.1, .port, some hp.2⟩)
    ++ if tr then hosts.map (fun h => ⟨h, .trace, none⟩) else []

/-- Every `ProbeResult` a comprehensive run produces, in submission order.
With `ports = []` the guard `if ports:` of the source skips the section, which
produces the same empty result list. -/
def allResults (env : Env) (hosts : List String) (ports : List Nat) (tr : Bool) :
    List ProbeResult :=
  (dnsResults env hosts).map .dns ++ (pingResults env hosts).map .ping
    ++ (portResults env hosts ports).map .port
    ++ if tr then (traceResults env hosts).map .trace else []

/-! ### Textual rendering (`comprehensive_test` print statements) -/

/-- Rendering of a rational where the source formats a float. -/
def fmtQ (q : ℚ) : String := toString q

/-- One line of the DNS section. -/
def dnsLine (r : DnsResult) : String :=
  if r.status = .success then
    "  " ++ r.hostname ++ ": " ++ r.ip.getD "" ++ " (" ++ fmtQ (r.response_time.getD 0) ++ "ms)"
  else
    "  " ++ r.hostname ++ ": FAILED (" ++ r.error.getD "" ++ ")"

/-- One line of the ping section (`result.get("error", "Unknown error")`). -/
def pingLine (r : PingResult) : String :=
  if r.status = .success then
    "  " ++ r.host ++ ": min/avg/max = " ++ fmtQ (r.min.getD 0) ++ "/"
      ++ fmtQ (r.avg.getD 0) ++ "/" ++ fmtQ (r.max.getD 0) ++ "ms"
  else
    "  " ++ r.host ++ ": FAILED (" ++ r.error.getD "Unknown error" ++ ")"

/-- One line of the port section. -/
def portLine (r : PortResult) : String :=
  if r.status = .portOpen then
    "  " ++ r.host ++ ":" ++ toString r.port ++ " - OPEN ("
      ++ fmtQ (r.response_time.getD 0) ++ "ms)"
  else if r.status = .portClosed then
    "  " ++ r.host ++ ":" ++ toString r.port ++ " - CLOSED"
  else
    "  " ++ r.host ++ ":" ++ toString r.port ++ " - ERROR (" ++ r.error.getD "Unknown" ++ ")"

/-- The printed block of one traceroute. -/
def traceBlock (r : TraceResult) : List String :=
  ("Traceroute to " ++ r.host ++ ":") ::
    if r.status = .success then [r.output.getD ""]
    else ["  FAILED: " ++ r.error.getD "Unknown error"]

/-- DNS section body: one line per future, in the order `as_completed`
yields them (`completion` is the completion-order list of results). -/
def dnsSection (completion : List DnsResult) : List String :=
  completion.map dnsLine

/-- Ping section body, in completion order. -/
def pingSection (completion : List PingResult) : List String :=
  completion.map pingLine

/-- Port section body, in completion order. -/
def portSection (completion : List PortResult) : List String :=
  completion.map portLine

/-- Traceroute section body: a sequential loop over `hosts` — submission
order, one block per host. -/
def traceSection (env : Env) (hosts : List String) : List String :=
  (traceResults env hosts).flatMap traceBlock

/-- The probe sections of the comprehensive report (the interface/routing
sections print external collaborator output and are out of scope).  The
three pooled categories are rendered from their completion-order lists;
traceroute from the submitted host list. -/
def comprehensiveReport (env : Env) (hosts : List String) (ports : List Nat) (tr : Bool)
    (cdns : List DnsResult) (cping : List PingResult) (cport : List PortResult) :
    List String :=
  ["=== Network Diagnostics Report ===", "3. DNS Resolution:"] ++ dnsSection cdns
    ++ ["4. Ping Tests:"] ++ pingSection cping
    ++ (if ports.isEmpty then [] else "5. Port Connectivity:" :: portSection cport)
    ++ if tr then "6. Traceroute:" :: traceSection env hosts else []

end NetDiag

namespace CLI

/-- The literal default of the `hosts` positional argument. -/
def defaultHosts : List String := ["8.8.8.8", "google.com", "github.com"]

/-- The parsed command-line arguments of `main`. -/
structure Args where
  hosts : List String
  ports : List Nat := []
  includeTraceroute : Bool := false
  ping_only : Bool := false
  dns_only : Bool := false

/-- argparse semantics of `parser.add_argument(hosts, nargs=*,
default=[...])`: with zero host values supplied, `args.hosts` is the
default list. -/
def parseHosts (positional : List String) : List String :=
  if positional.isEmpty then defaultHosts else positional

/-- The target list the selected mode of `main` iterates over: the
ping-only branch, the dns-only branch and the comprehensive branch all use
`args.hosts`. -/
def mainTargets (args : Args) : List String :=
  if args.ping_only then args.hosts
  else if args.dns_only then args.hosts
  else args.hosts

end CLI

namespace LogAnalyzer

/-- The dictionary returned by `analyze_http_status_codes`: the tally of
extracted status codes and `total_requests = sum(status_counts.values())`. -/
structure HttpAnalysis where
  status_counts : List (String × Nat)
  total_requests : Nat

/-- The function `analyze_http_status_codes`, over the tallied matches of the
`http_status` pattern. -/
def analyze_http_status_codes (status_counts : List (String × Nat)) : HttpAnalysis :=
  { status_counts := status_counts,
    total_requests := (status_counts.map Prod.snd).sum }

/-- Float formatting with one decimal place, value-level only. -/
def fmt1f (q : ℚ) : String := toString q

/-- Python `sorted(items())` on the count pairs. -/
def sortCounts (counts : List (String × Nat)) : List (String × Nat) :=
  counts.mergeSort (fun x y => decide (x.1 ≤ y.1))

/-- Section 4 of `generate_report`: the percentage `count / total * 100` is
computed under the `total_requests > 0` guard; a zero total prints the
no-data line instead. -/
def httpSectionLines (a : HttpAnalysis) : List String :=
  if a.total_requests > 0 then
    ("   Total HTTP requests: " ++ toString a.total_requests) ::
      "   Status code distribution:" ::
      (sortCounts a.status_counts).map (fun sc =>
        "     " ++ sc.1 ++ ": " ++ toString sc.2 ++ " ("
          ++ fmt1f ((sc.2 : ℚ) / (a.total_requests : ℚ) * 100) ++ "%)")
  else
    ["   No HTTP status codes found"]

/-- The percentage of the `--web` branch of `main`:
`(count / total) * 100 if total > 0 else 0`. -/
def webModePercent (a : HttpAnalysis) (count : Nat) : ℚ :=
  if a.total_requests > 0 then (count : ℚ) / (a.total_requests : ℚ) * 100 else 0

/-- The `--web` branch output of `main`. -/
def webModeLines (a : HttpAnalysis) : List String :=
  ("HTTP Status Code Analysis (" ++ toString a.total_requests ++ " total requests):") ::
    (sortCounts a.status_counts).map (fun sc =>
      sc.1 ++ ": " ++ toString sc.2 ++ " (" ++ fmt1f (webModePercent a sc.2) ++ "%)")

end LogAnalyzer

/-! ## Concrete runs used by counterexamples and witnesses -/

namespace NetDiag

/-- A fixed environment for concrete witnesses: resolution fails, processes
time out, connects are refused. -/
def envW : Env where
  resolve := fun _ => .gaierror "[Errno -2] Name or service not known"
  dnsElapsed := fun _ => 0
  pingProc := fun _ _ => .timedOut
  connect := fun _ _ => .ret 111
  connectElapsed := fun _ _ => 0
  traceProc := fun _ => .timedOut

/-- Environment of the rendering-order scenario: both targets resolve. -/
def envC1 : Env where
  resolve := fun h => .resolved (if h = "a.example" then "10.0.0.1" else "10.0.0.2")
  dnsElapsed := fun _ => 0
  pingProc := fun _ _ => .timedOut
  connect := fun _ _ => .ret 111
  connectElapsed := fun _ _ => 0
  traceProc := fun _ => .timedOut

/-- The DNS results of the rendering-order scenario in the order the
futures complete: `a.example` finishes first although `b.example` was
submitted first. -/
def completionC1 : List DnsResult :=
  [dns_lookup "a.example" 0 (.resolved "10.0.0.1"),
   dns_lookup "b.example" 0 (.resolved "10.0.0.2")]

end NetDiag

/-! ## Helper lemmas -/

namespace NetDiag

theorem ping_host_core_host (host : String) (count timeout : Nat) (pr : ProcResult) :
    (ping_host_core host count timeout pr).host = host := by
  unfold ping_host_core
  cases pr with
  | completed rc out errS =>
      dsimp only
      split
      · split
        · split <;> rfl
        · rfl
      · rfl
  | timedOut => rfl
  | raised msg => rfl

theorem ping_host_host (host : String) (count timeout : Nat) (run : Nat → ProcResult) :
    (ping_host host count timeout run).host = host :=
  ping_host_core_host host count timeout _

theorem dns_lookup_hostname (hostname : String) (e : ℚ) (r : ResolveOutcome) :
    (dns_lookup hostname e r).hostname = hostname := by
  cases r <;> rfl

theorem check_port_host (host : String) (port : Nat) (e : ℚ) (a : ConnectExOutcome) :
    (check_port host port e a).1.host = host := by
  cases a with
  | ret code => by_cases h : code = 0 <;> simp [check_port, h]
  | raised msg => rfl

theorem check_port_port (host : String) (port : Nat) (e : ℚ) (a : ConnectExOutcome) :
    (check_port host port e a).1.port = port := by
  cases a with
  | ret code => by_cases h : code = 0 <;> simp [check_port, h]
  | raised msg => rfl

theorem traceroute_host (host : String) (proc : ProcResult) :
    (traceroute host proc).host = host := by
  cases proc with
  | completed rc out errS => by_cases h : rc = 0 <;> simp [traceroute, h]
  | timedOut => rfl
  | raised msg => rfl

theorem dnsResults_map_hostname (env : Env) (hosts : List String) :
    (dnsResults env hosts).map DnsResult.hostname = hosts := by
  unfold dnsResults
  rw [List.map_map]
  conv_rhs => rw [← List.map_id hosts]
  exact List.map_congr_left fun h _ => dns_lookup_hostname h _ _

theorem pingResults_map_host (env : Env) (hosts : List String) :
    (pingResults env hosts).map PingResult.host = hosts := by
  unfold pingResults
  rw [List.map_map]
  conv_rhs => rw [← List.map_id hosts]
  exact List.map_congr_left fun h _ => ping_host_host h 4 5 _

theorem portResults_map_pair (env : Env) (hosts : List String) (ports : List Nat) :
    (portResults env hosts ports).map (fun r => (r.host, r.port)) = portPairs hosts ports := by
  unfold portResults
  rw [List.map_map]
  conv_rhs => rw [← List.map_id (portPairs hosts ports)]
  refine List.map_congr_left fun hp _ => ?_
  show ((check_port hp.1 hp.2 _ _).1.host, (check_port hp.1 hp.2 _ _).1.port) = hp
  rw [check_port_host, check_port_port]

theorem traceResults_map_host (env : Env) (hosts : List String) :
    (traceResults env hosts).map TraceResult.host = hosts := by
  unfold traceResults
  rw [List.map_map]
  conv_rhs => rw [← List.map_id hosts]
  exact List.map_congr_left fun h _ => traceroute_host h _

theorem portPairs_length (hosts : List String) (ports : List Nat) :
    (portPairs hosts ports).length = hosts.length * ports.length := by
  induction hosts with
  | nil => simp [portPairs]
  | cons h t ih =>
      unfold portPairs at ih ⊢
      simp only [List.flatMap_cons, List.length_append, List.length_map, ih, List.length_cons]
      ring

theorem dnsResults_keys (env : Env) (hosts : List String) :
    (dnsResults env hosts).map (fun r => resultKey (.dns r))
      = hosts.map (fun h => (⟨h, .dns, none⟩ : ProbeKey)) := by
  unfold dnsResults
  rw [List.map_map]
  exact List.map_congr_left fun h _ => by
    simp [Function.comp, resultKey, dns_lookup_hostname]

theorem pingResults_keys (env : Env) (hosts : List String) :
    (pingResults env hosts).map (fun r => resultKey (.ping r))
      = hosts.map (fun h => (⟨h, .ping, none⟩ : ProbeKey)) := by
  unfold pingResults
  rw [List.map_map]
  exact List.map_congr_left fun h _ => by
    simp [Function.comp, resultKey, ping_host_host]

theorem portResults_keys (env : Env) (hosts : List String) (ports : List Nat) :
    (portResults env hosts ports).map (fun r => resultKey (.port r))
      = (portPairs hosts ports).map (fun hp => (⟨hp.1, .port, some hp.2⟩ : ProbeKey)) := by
  unfold portResults
  rw [List.map_map]
  exact List.map_congr_left fun hp _ => by
    simp [Function.comp, resultKey, check_port_host, check_port_port]

theorem traceResults_keys (env : Env) (hosts : List String) :
    (traceResults env hosts).map (fun r => resultKey (.trace r))
      = hosts.map (fun h => (⟨h, .trace, none⟩ : ProbeKey)) := by
  unfold traceResults
  rw [List.map_map]
  exact List.map_congr_left fun h _ => by
    simp [Function.comp, resultKey, traceroute_host]

theorem allResults_map_key (env : Env) (hosts : List String) (ports : List Nat) (tr : Bool) :
    (allResults env hosts ports tr).map resultKey = requestedKeys hosts ports tr := by
  unfold allResults requestedKeys
  rw [List.map_append, List.map_append, List.map_append]
  rw [show List.map resultKey ((dnsResults env hosts).map .dns)
        = (dnsResults env hosts).map (fun r => resultKey (.dns r)) from List.map_map ..,
    show List.map resultKey ((pingResults env hosts).map .ping)
        = (pingResults env hosts).map (fun r => resultKey (.ping r)) from List.map_map ..,
    show List.map resultKey ((portResults env hosts ports).map .port)
        = (portResults env hosts ports).map (fun r => resultKey (.port r)) from List.map_map ..,
    dnsResults_keys, pingResults_keys, portResults_keys]
  cases tr with
  | false => rfl
  | true =>
      simp only [if_true]
      rw [show List.map resultKey ((traceResults env hosts).map .trace)
            = (traceResults env hosts).map (fun r => resultKey (.trace r)) from List.map_map ..,
        traceResults_keys]

theorem ping_host_core_latency (host : String) (count timeout : Nat) (pr : ProcResult) :
    ((ping_host_core host count timeout pr).min.isSome
        ↔ (ping_host_core host count timeout pr).status = Status.success) ∧
    ((ping_host_core host count timeout pr).avg.isSome
        ↔ (ping_host_core host count timeout pr).status = Status.success) ∧
    ((ping_host_core host count timeout pr).max.isSome
        ↔ (ping_host_core host count timeout pr).status = Status.success) := by
  unfold ping_host_core
  cases pr with
  | completed rc out errS =>
      dsimp only
      split
      · split
        · split <;> simp
        · simp
      · simp
  | timedOut => simp
  | raised msg => simp

theorem ping_host_core_status (host : String) (count timeout : Nat) (pr : ProcResult) :
    (ping_host_core host count timeout pr).status
      ∈ [Status.success, Status.failed, Status.timeout, Status.error] := by
  unfold ping_host_core
  cases pr with
  | completed rc out errS =>
      dsimp only
      split
      · split
        · split <;> simp
        · simp
      · simp
  | timedOut => simp
  | raised msg => simp

end NetDiag

/-! ## Claim theorems -/

open NetDiag in
/-- C3, counterexample: a `check_port` connect attempt that does not resolve
within the socket timeout makes `connect_ex` return the nonzero
`EWOULDBLOCK` code, which the source classifies as `"closed"` — not as the
`Timeout` the claim requires (indeed `check_port` has no timeout branch at
all). -/
theorem claim_C3_counterexample :
    (check_port "10.255.255.1" 81 5 ConnectExOutcome.timedOutAttempt).1.status
        = Status.portClosed ∧
    Status.portClosed ≠ Status.timeout := by
  constructor
  · rfl
  · decide

open NetDiag in
/-- C3, amended: when the TCP connect attempt does not resolve to success or
definitive failure within the given timeout, `connect_ex` returns
`EWOULDBLOCK` and the outcome of the returned result is Closed; every
`check_port` outcome is one of Open, Closed, Error — Timeout is never
returned. -/
theorem claim_C3 (host : String) (port : Nat) (e : ℚ) (a : ConnectExOutcome) :
    (check_port host port e ConnectExOutcome.timedOutAttempt).1.status = Status.portClosed ∧
    (check_port host port e a).1.status
      ∈ [Status.portOpen, Status.portClosed, Status.error] := by
  refine ⟨rfl, ?_⟩
  cases a with
  | ret code => by_cases h : code = 0 <;> simp [check_port, h]
  | raised msg => simp [check_port]

open NetDiag in
/-- C5: latency fields are populated exactly on the success outcome:
`dns_lookup` carries `response_time` and `ip` iff Success, `check_port`
carries `response_time` iff Open, `ping_host` carries `min`/`avg`/`max` iff
Success; no Failed/Timeout/Error/Closed result carries a latency field. -/
theorem claim_C5 (host hostname : String) (port count timeout : Nat) (e e' : ℚ)
    (resolver : ResolveOutcome) (a : ConnectExOutcome) (run : Nat → ProcResult) :
    ((dns_lookup hostname e resolver).response_time.isSome
        ↔ (dns_lookup hostname e resolver).status = Status.success) ∧
    ((dns_lookup hostname e resolver).ip.isSome
        ↔ (dns_lookup hostname e resolver).status = Status.success) ∧
    ((check_port host port e' a).1.response_time.isSome
        ↔ (check_port host port e' a).1.status = Status.portOpen) ∧
    ((ping_host host count timeout run).min.isSome
        ↔ (ping_host host count timeout run).status = Status.success) ∧
    ((ping_host host count timeout run).avg.isSome
        ↔ (ping_host host count timeout run).status = Status.success) ∧
    ((ping_host host count timeout run).max.isSome
        ↔ (ping_host host count timeout run).status = Status.success) := by
  refine ⟨?_, ?_, ?_, ping_host_core_latency host count timeout _ |>.1,
    ping_host_core_latency host count timeout _ |>.2.1,
    ping_host_core_latency host count timeout _ |>.2.2⟩
  · cases resolver <;> simp [dns_lookup]
  · cases resolver <;> simp [dns_lookup]
  · cases a with
    | ret code => by_cases h : code = 0 <;> simp [check_port, h]
    | raised msg => simp [check_port]

open NetDiag in
/-- C6: each probe executor returns one of the terminal outcomes
(Success — open/closed for ports —, Failed, Timeout, Error) as a plain
value.  The executors are total functions over every environment outcome,
including the raised-exception cases, which is the embedding of "never
propagates an exception past the executor boundary". -/
theorem claim_C6 (host hostname : String) (port count timeout : Nat) (e e' : ℚ)
    (resolver : ResolveOutcome) (a : ConnectExOutcome) (run : Nat → ProcResult)
    (proc : ProcResult) :
    (ping_host host count timeout run).status
      ∈ [Status.success, Status.failed, Status.timeout, Status.error] ∧
    (traceroute host proc).status
      ∈ [Status.success, Status.failed, Status.timeout, Status.error] ∧
    (dns_lookup hostname e resolver).status
      ∈ [Status.success, Status.failed, Status.error] ∧
    (check_port host port e' a).1.status
      ∈ [Status.portOpen, Status.portClosed, Status.error] := by
  refine ⟨ping_host_core_status host count timeout _, ?_, ?_, ?_⟩
  · cases proc with
    | completed rc out errS => by_cases h : rc = 0 <;> simp [traceroute, h]
    | timedOut => simp [traceroute]
    | raised msg => simp [traceroute]
  · cases resolver <;> simp [dns_lookup]
  · cases a with
    | ret code => by_cases h : code = 0 <;> simp [check_port, h]
    | raised msg => simp [check_port]

open NetDiag in
/-- C7: the external ping process gets the hard wall-clock bound
`timeout * count + 10`; when that bound is exceeded (`subprocess.run`
kills the child and raises `TimeoutExpired`, modelled by
`ProcResult.timedOut`) the outcome is Timeout. -/
theorem claim_C7 (host : String) (count timeout : Nat) (run : Nat → ProcResult)
    (h : run (timeout * count + 10) = ProcResult.timedOut) :
    (ping_host host count timeout run).status = Status.timeout ∧
    (ping_host host count timeout run).error
      = some ("Ping timeout after " ++ toString (timeout * count) ++ " seconds") := by
  unfold ping_host
  rw [h]
  exact ⟨rfl, rfl⟩

open NetDiag in
/-- C7 witness: a run whose ping process exceeds the 4·5+10 second bound. -/
theorem claim_C7_witness :
    (ping_host "a.example" 4 5 (fun _ => ProcResult.timedOut)).status = Status.timeout ∧
    (ping_host "a.example" 4 5 (fun _ => ProcResult.timedOut)).error
      = some ("Ping timeout after " ++ toString (5 * 4) ++ " seconds") :=
  claim_C7 "a.example" 4 5 (fun _ => ProcResult.timedOut) rfl

open NetDiag in
/-- C8: evaluating `check_port` on its exit paths.  On the open and closed
paths `sock.close()` runs, but on the error path — here a name-resolution
failure raised by `connect_ex` — the function returns from the `except`
block without ever closing the socket, contradicting the claim that the
socket is released on every exit path. -/
theorem claim_C8 :
    (check_port "127.0.0.1" 80 0 (ConnectExOutcome.ret 0)).2 = true ∧
    (check_port "127.0.0.1" 65535 0 (ConnectExOutcome.ret 111)).2 = true ∧
    (check_port "definitely-invalid.invalid" 80 0
        (ConnectExOutcome.raised "[Errno -2] Name or service not known")).2 = false := by
  refine ⟨rfl, ?_, rfl⟩
  decide

open NetDiag in
/-- C2, counterexample: on a zero-exit ping whose stdout contains exactly
the literal statistics line `"round-trip min/avg/max = 1.234/5.678/9.012 ms"`,
splitting on `"="` then `"/"` leaves `"9.012 ms"` as the third component;
`float("9.012 ms")` raises `ValueError`, the blanket `except Exception`
catches it, and `ping_host` returns an Error result with no parsed values —
not the Success result with max = 9.012 that the claim states. -/
theorem claim_C2_counterexample :
    (ping_host "a.example" 4 5 (fun _ => ProcResult.completed 0
        "PING a.example: 56 data bytes\nround-trip min/avg/max = 1.234/5.678/9.012 ms\n" "")).status
      = Status.error ∧
    (ping_host "a.example" 4 5 (fun _ => ProcResult.completed 0
        "PING a.example: 56 data bytes\nround-trip min/avg/max = 1.234/5.678/9.012 ms\n" "")).min
      = none := by
  decide

open NetDiag in
/-- C2, amended: the parser locates the line containing `"min/avg/max"` and
splits on `"="` then `"/"`, but Success additionally requires each of the
first three components to be a valid float literal.  The 3-value
literal line leaves `" ms"` attached to the third component and yields
Error; with the fourth component real ping output carries
(`rtt min/avg/max/mdev = 1.234/5.678/9.012/0.345 ms`), `ping_host` returns
Success with min = 1.234, avg = 5.678, max = 9.012. -/
theorem claim_C2 (host : String) (count timeout : Nat) (run : Nat → ProcResult)
    (hrun : run (timeout * count + 10) = ProcResult.completed 0
      "PING a.example: 56 data bytes\nrtt min/avg/max/mdev = 1.234/5.678/9.012/0.345 ms\n" "") :
    (ping_host host count timeout run).status = Status.success ∧
    (ping_host host count timeout run).min = some 1.234 ∧
    (ping_host host count timeout run).avg = some 5.678 ∧
    (ping_host host count timeout run).max = some 9.012 := by
  unfold ping_host
  rw [hrun]
  unfold ping_host_core
  dsimp only
  rw [if_pos rfl]
  have hstats : statsLines
      "PING a.example: 56 data bytes\nrtt min/avg/max/mdev = 1.234/5.678/9.012/0.345 ms\n"
      = ["rtt min/avg/max/mdev = 1.234/5.678/9.012/0.345 ms".toList] := by decide
  rw [hstats]
  have hparse : parsePingStats "rtt min/avg/max/mdev = 1.234/5.678/9.012/0.345 ms".toList
      = some (((1234 : Int) : ℚ) / 10 ^ (3 : Nat), ((5678 : Int) : ℚ) / 10 ^ (3 : Nat),
        ((9012 : Int) : ℚ) / 10 ^ (3 : Nat)) := rfl
  dsimp only
  rw [hparse]
  refine ⟨rfl, ?_, ?_, ?_⟩ <;> norm_num

open NetDiag in
/-- C2 witness: the amended theorem applied to a concrete run returning the
4-component statistics line. -/
theorem claim_C2_witness :
    ((fun _ => ProcResult.completed 0
        "PING a.example: 56 data bytes\nrtt min/avg/max/mdev = 1.234/5.678/9.012/0.345 ms\n" ""
        : Nat → ProcResult) (5 * 4 + 10) = ProcResult.completed 0
        "PING a.example: 56 data bytes\nrtt min/avg/max/mdev = 1.234/5.678/9.012/0.345 ms\n" "") ∧
    (ping_host "a.example" 4 5 (fun _ => ProcResult.completed 0
        "PING a.example: 56 data bytes\nrtt min/avg/max/mdev = 1.234/5.678/9.012/0.345 ms\n" "")).status
      = Status.success ∧
    (ping_host "a.example" 4 5 (fun _ => ProcResult.completed 0
        "PING a.example: 56 data bytes\nrtt min/avg/max/mdev = 1.234/5.678/9.012/0.345 ms\n" "")).min
      = some 1.234 ∧
    (ping_host "a.example" 4 5 (fun _ => ProcResult.completed 0
        "PING a.example: 56 data bytes\nrtt min/avg/max/mdev = 1.234/5.678/9.012/0.345 ms\n" "")).avg
      = some 5.678 ∧
    (ping_host "a.example" 4 5 (fun _ => ProcResult.completed 0
        "PING a.example: 56 data bytes\nrtt min/avg/max/mdev = 1.234/5.678/9.012/0.345 ms\n" "")).max
      = some 9.012 :=
  ⟨rfl, claim_C2 "a.example" 4 5 _ rfl⟩

open NetDiag in
/-- C1, counterexample: with targets submitted as
`["b.example", "a.example"]` and `a.example` completing first, the DNS
section — which prints results in `as_completed` order — renders
the `a.example` line before the `b.example` line, so the report does not list
targets in the original submitted order. -/
theorem claim_C1_counterexample :
    completionC1.Perm (dnsResults envC1 ["b.example", "a.example"]) ∧
    dnsSection completionC1
      = [dnsLine (dns_lookup "a.example" 0 (.resolved "10.0.0.1")),
         dnsLine (dns_lookup "b.example" 0 (.resolved "10.0.0.2"))] ∧
    (dns_lookup "a.example" 0 (.resolved "10.0.0.1")).hostname = "a.example" ∧
    (dns_lookup "b.example" 0 (.resolved "10.0.0.2")).hostname = "b.example" := by
  refine ⟨?_, rfl, rfl, rfl⟩
  rw [show dnsResults envC1 ["b.example", "a.example"]
      = [dns_lookup "b.example" 0 (.resolved "10.0.0.2"),
         dns_lookup "a.example" 0 (.resolved "10.0.0.1")] from rfl]
  exact List.Perm.swap _ _ _

open NetDiag in
/-- C1, amended: only the traceroute section lists targets in submission
order; the DNS, ping and port sections are rendered in completion order —
every submitted target appears exactly once (the rendered targets are a
permutation of the submitted ones), but not necessarily in submitted
order. -/
theorem claim_C1 (env : Env) (hosts : List String) (ports : List Nat)
    (cdns : List DnsResult) (cping : List PingResult) (cport : List PortResult)
    (hdns : cdns.Perm (dnsResults env hosts))
    (hping : cping.Perm (pingResults env hosts))
    (hport : cport.Perm (portResults env hosts ports)) :
    (cdns.map DnsResult.hostname).Perm hosts ∧
    (cping.map PingResult.host).Perm hosts ∧
    (cport.map (fun r => (r.host, r.port))).Perm (portPairs hosts ports) ∧
    (traceResults env hosts).map TraceResult.host = hosts := by
  refine ⟨?_, ?_, ?_, traceResults_map_host env hosts⟩
  · rw [← dnsResults_map_hostname env hosts]; exact hdns.map _
  · rw [← pingResults_map_host env hosts]; exact hping.map _
  · rw [← portResults_map_pair env hosts ports]; exact hport.map _

open NetDiag in
/-- C1 witness: the amended theorem at a concrete run, taking the
completion orders equal to the submission orders. -/
theorem claim_C1_witness :
    ((dnsResults envC1 ["b.example", "a.example"]).map DnsResult.hostname).Perm
        ["b.example", "a.example"] ∧
    ((pingResults envC1 ["b.example", "a.example"]).map PingResult.host).Perm
        ["b.example", "a.example"] ∧
    ((portResults envC1 ["b.example", "a.example"] [80]).map
        (fun r => (r.host, r.port))).Perm (portPairs ["b.example", "a.example"] [80]) ∧
    (traceResults envC1 ["b.example", "a.example"]).map TraceResult.host
        = ["b.example", "a.example"] :=
  claim_C1 envC1 ["b.example", "a.example"] [80] _ _ _
    (List.Perm.refl _) (List.Perm.refl _) (List.Perm.refl _)

open NetDiag in
/-- C4: however the futures complete (any permutation `c` of the produced
results), the keys of the results are exactly the requested
(target, kind[, port]) keys — one result per request, none dropped, none
duplicated — and the result count is 2·|T| + |T|·|P| (+ |T| for
traceroute when requested). -/
theorem claim_C4 (env : Env) (hosts : List String) (ports : List Nat) (tr : Bool)
    (c : List ProbeResult) (hc : c.Perm (allResults env hosts ports tr)) :
    (c.map resultKey).Perm (requestedKeys hosts ports tr) ∧
    c.length = 2 * hosts.length + hosts.length * ports.length
        + (if tr then hosts.length else 0) := by
  constructor
  · rw [← allResults_map_key env hosts ports tr]
    exact hc.map resultKey
  · rw [hc.length_eq]
    unfold allResults dnsResults pingResults portResults traceResults
    cases tr <;>
      simp [List.length_append, List.length_map, portPairs_length] <;> ring

open NetDiag in
/-- C4 witness: a concrete two-target run with one port and traceroute
requested, taking the completion order equal to the submission order. -/
theorem claim_C4_witness :
    ((allResults envW ["h1", "h2"] [80] true).map resultKey).Perm
        (requestedKeys ["h1", "h2"] [80] true) ∧
    (allResults envW ["h1", "h2"] [80] true).length
        = 2 * 2 + 2 * 1 + (if true then 2 else 0) := by
  have h := claim_C4 envW ["h1", "h2"] [80] true _ (List.Perm.refl _)
  simpa using h

/-- C9: in the HTTP status-code summaries, a zero total renders the
no-data line in `generate_report` and a literal 0 percentage in the
`--web` branch; the `count / total * 100` expression is evaluated only
under the respective nonzero guards. -/
theorem claim_C9 (a : LogAnalyzer.HttpAnalysis) (count : Nat)
    (h : a.total_requests = 0) :
    LogAnalyzer.httpSectionLines a = ["   No HTTP status codes found"] ∧
    LogAnalyzer.webModePercent a count = 0 := by
  unfold LogAnalyzer.httpSectionLines LogAnalyzer.webModePercent
  rw [h]
  simp

/-- C9 witness: a log with no HTTP status matches. -/
theorem claim_C9_witness :
    (LogAnalyzer.analyze_http_status_codes []).total_requests = 0 ∧
    LogAnalyzer.httpSectionLines (LogAnalyzer.analyze_http_status_codes [])
      = ["   No HTTP status codes found"] ∧
    LogAnalyzer.webModePercent (LogAnalyzer.analyze_http_status_codes []) 7 = 0 :=
  ⟨rfl, (claim_C9 (LogAnalyzer.analyze_http_status_codes []) 7 rfl).1,
    (claim_C9 (LogAnalyzer.analyze_http_status_codes []) 7 rfl).2⟩

/-- C10: with zero host arguments, every mode of the CLI — ping-only,
dns-only and comprehensive — operates on exactly
`["8.8.8.8", "google.com", "github.com"]`, in that order. -/
theorem claim_C10 (p d t : Bool) (ports : List Nat) :
    CLI.mainTargets
        { hosts := CLI.parseHosts [], ports := ports,
          includeTraceroute := t, ping_only := p, dns_only := d }
      = ["8.8.8.8", "google.com", "github.com"] := by
  cases p <;> cases d <;> rfl
